import Mathlib

/-!
Shallow embedding of the component endpoints of the rf-cascade-tool-db
service (src/app/api/endpoints/components.py).

Each HTTP handler runs inside one transactional unit of work
(`with Session() as session, session.begin():`): the transaction commits on
normal exit and rolls back when an exception (such as `HTTPException`)
escapes.  We model the database as an explicit state value `DB` and each
handler as a function `... → DB → Except HTTPError (result × DB)`:
a `.ok` result carries the committed state, while a `.error` result carries
no state at all, which is exactly the rollback semantics (the caller keeps
the prior `DB`).

The ORM model classes live in `database/models/components.py`, which is not
part of the sources; their row shapes and the constraints the database
enforces are modelled from the spec (each such definition says so in its
doc comment).  The handler logic itself is translated line by line from
`components.py`.
-/

/-- An `HTTPException` as raised by the handlers: an HTTP status code plus a
detail message. -/
structure HTTPError where
  status : Nat
  detail : String
deriving DecidableEq

/-- Modelled from the spec: the `ComponentType` row, `{id, type (unique string)}`
(§3 of the spec; the ORM class is in the missing models module). -/
structure ComponentType where
  id : Nat
  type : String
deriving DecidableEq

/-- Modelled from the spec: the `ComponentTypeInputModel` body, carrying the
type string (field sets are "defined by external schema collaborators"). -/
structure ComponentTypeInputModel where
  type : String
deriving DecidableEq

/-- Modelled from the spec: the `Component` row, `{id, ...fields including a
reference to ComponentType}` (§3).  The unspecified payload fields are
represented by a single `name` string next to the `type_id` reference. -/
structure Component where
  id : Nat
  type_id : Nat
  name : String
deriving DecidableEq

/-- Modelled from the spec: the `ComponentInputModel` body: every field of the
row except the generated `id`. -/
structure ComponentInputModel where
  type_id : Nat
  name : String
deriving DecidableEq

/-- Modelled from the spec: the `ComponentData` row,
`{id, component_id (foreign key), ...payload fields}` (§3). -/
structure ComponentData where
  id : Nat
  component_id : Nat
  payload : String
deriving DecidableEq

/-- Modelled from the spec: the `ComponentDataInputModel` body.  The handler
builds the row from the body alone (`ComponentData(**body.model_dump())`), so
the body carries the `component_id` itself (§4.2: "caller supplies
`component_id` as part of the body"). -/
structure ComponentDataInputModel where
  component_id : Nat
  payload : String
deriving DecidableEq

/-- Modelled from the spec: the `ComponentVersion` row,
`{id, component_id (foreign key), version, is_verified, ...fields}` (§3). -/
structure ComponentVersion where
  id : Nat
  component_id : Nat
  version : Nat
  is_verified : Bool
  payload : String
deriving DecidableEq

/-- Modelled from the spec: the `ComponentVersionInputModel` body: the payload
fields only.  `component_id`, `is_verified` and `version` are passed as extra
keyword arguments by the handler, so they cannot also be body fields. -/
structure ComponentVersionInputModel where
  payload : String
deriving DecidableEq

/-- The relational state touched by this router: one list per table, plus the
autoincrement counter of each table's primary key. -/
structure DB where
  components : List Component
  component_data : List ComponentData
  component_versions : List ComponentVersion
  component_types : List ComponentType
  next_component_id : Nat
  next_data_id : Nat
  next_version_id : Nat
  next_type_id : Nat
deriving DecidableEq

/-- Python's `pat in s` substring test on explicit character lists: does the
pattern match at the head of the text? -/
def matchesAt : List Char → List Char → Bool
  | [], _ => true
  | _ :: _, [] => false
  | p :: ps, c :: cs => p == c && matchesAt ps cs

/-- Does the pattern occur anywhere in the text? -/
def containsAt (pat : List Char) : List Char → Bool
  | [] => matchesAt pat []
  | c :: cs => matchesAt pat (c :: cs) || containsAt pat cs

/-- Python's `pat in s` substring containment on strings, used by the source
as `"UniqueViolation" in err_msg`. -/
def strContains (s pat : String) : Bool :=
  containsAt pat.toList s.toList

/-- Modelled from the spec: the foreign-key check the database runs when a
`Component` row is flushed ("Foreign keys (`component_id`, component's type
reference) must reference existing rows; the database rejects orphaned
references", §3).  Returns the `IntegrityError` message, or `none` when the
row is acceptable. -/
def componentIntegrityError (c : Component) (db : DB) : Option String :=
  if db.component_types.any (fun t => t.id == c.type_id) then none
  else some "(psycopg2.errors.ForeignKeyViolation) insert or update on table components violates foreign key constraint"

/-- Modelled from the spec: the foreign-key check on a `ComponentData` row
(`component_id` must reference an existing component, §3). -/
def dataIntegrityError (d : ComponentData) (db : DB) : Option String :=
  if db.components.any (fun c => c.id == d.component_id) then none
  else some "(psycopg2.errors.ForeignKeyViolation) insert or update on table component_data violates foreign key constraint"

/-- Modelled from the spec: the foreign-key check on a `ComponentVersion` row
(`component_id` must reference an existing component, §3).  The spec records
that no uniqueness constraint on `(component_id, version)` is known to exist
at the schema level (§4.3), so none is modelled. -/
def versionIntegrityError (v : ComponentVersion) (db : DB) : Option String :=
  if db.components.any (fun c => c.id == v.component_id) then none
  else some "(psycopg2.errors.ForeignKeyViolation) insert or update on table component_versions violates foreign key constraint"

/-- Modelled from the spec: the uniqueness check the database runs when a
`ComponentType` row is flushed ("`ComponentType.type` is globally unique",
§3).  The message carries the driver's `UniqueViolation` marker, which the
handler string-matches on. -/
def typeIntegrityError (t : ComponentType) (db : DB) : Option String :=
  if db.component_types.any (fun u => u.type == t.type) then
    some "(psycopg2.errors.UniqueViolation) duplicate key value violates unique constraint"
  else none

/-- Source lines 18-25: `GET /components` returns every row of the components
table serialized through the response model. -/
def get_components (db : DB) : List Component :=
  db.components

/-- The `status_code=HTTPStatus.CREATED` argument of the `POST /components`
route decorator (source line 28). -/
def post_component_status_code : Nat := 201

/-- Source lines 28-42: `POST /components` builds a row from the body, adds
and flushes it (obtaining the autoincremented id); an `IntegrityError` is
re-raised as a 500 with the raw error message, rolling the transaction back. -/
def post_component (body : ComponentInputModel) (db : DB) :
    Except HTTPError (Component × DB) :=
  let component : Component :=
    { id := db.next_component_id, type_id := body.type_id, name := body.name }
  match componentIntegrityError component db with
  | some err_msg => .error { status := 500, detail := err_msg }
  | none =>
      .ok (component,
        { db with
            components := db.components ++ [component],
            next_component_id := db.next_component_id + 1 })

/-- Source lines 45-50: `DELETE /components` deletes every row of the
components table and returns the count deleted. -/
def delete_components (db : DB) : Nat × DB :=
  (db.components.length, { db with components := [] })

/-- Source lines 53-72: `PUT /components/{component_id}` fetches the row by id
(`one_or_none`; ids are the primary key, hence unique, so the first match is
the only match), raises 404 when absent, otherwise overwrites every field
from the body, flushes (404 or `IntegrityError` → 500 roll the transaction
back) and returns the updated row. -/
def update_component (component_id : Nat) (body : ComponentInputModel)
    (db : DB) : Except HTTPError (Component × DB) :=
  match db.components.find? (fun c => c.id == component_id) with
  | none =>
      .error { status := 404,
               detail := s!"Component with ID: {component_id} not found" }
  | some component =>
      let updated : Component :=
        { id := component.id, type_id := body.type_id, name := body.name }
      match componentIntegrityError updated db with
      | some err_msg => .error { status := 500, detail := err_msg }
      | none =>
          .ok (updated,
            { db with
                components := db.components.map
                  (fun c => if c.id == component_id then updated else c) })

/-- Source lines 75-90: `POST /components/{component_id}/data` builds the row
from the body alone (the path parameter is never read), adds and flushes it;
an `IntegrityError` (including a bad parent id) is re-raised as a 500. -/
def post_component_data (component_id : Nat) (body : ComponentDataInputModel)
    (db : DB) : Except HTTPError (ComponentData × DB) :=
  let component_data : ComponentData :=
    { id := db.next_data_id, component_id := body.component_id,
      payload := body.payload }
  match dataIntegrityError component_data db with
  | some err_msg => .error { status := 500, detail := err_msg }
  | none =>
      .ok (component_data,
        { db with
            component_data := db.component_data ++ [component_data],
            next_data_id := db.next_data_id + 1 })

/-- Source lines 93-101: `GET /components/{component_id}/versions` fetches the
parent component (404 when absent) and returns its `component_versions`
relationship: the version rows whose `component_id` is the component's id. -/
def get_component_versions (component_id : Nat) (db : DB) :
    Except HTTPError (List ComponentVersion) :=
  match db.components.find? (fun c => c.id == component_id) with
  | none =>
      .error { status := 404,
               detail := s!"Component with ID: {component_id} not found" }
  | some _ =>
      .ok (db.component_versions.filter (fun v => v.component_id == component_id))

/-- The SQL `max` aggregate: `NULL` (`none`) on an empty set, otherwise the
maximum of the column values. -/
def sqlMax (l : List Nat) : Option Nat :=
  l.foldl (fun acc v => some (max (acc.getD 0) v)) none

/-- Source line 108: `select max(version) where component_id == component_id`. -/
def maxVersionQuery (component_id : Nat) (db : DB) : Option Nat :=
  sqlMax ((db.component_versions.filter
    (fun v => v.component_id == component_id)).map (fun v => v.version))

/-- Source lines 104-122: `POST /components/{component_id}/versions` reads
`max(version)` for this component (`None` treated as 0), adds 1, inserts a row
with that version and `is_verified = False`; an `IntegrityError` on flush is
re-raised as a 500. -/
def post_component_version (component_id : Nat)
    (body : ComponentVersionInputModel) (db : DB) :
    Except HTTPError (ComponentVersion × DB) :=
  let version :=
    match maxVersionQuery component_id db with
    | none => 0
    | some v => v
  let version := version + 1
  let component_version : ComponentVersion :=
    { id := db.next_version_id, component_id := component_id,
      version := version, is_verified := false, payload := body.payload }
  match versionIntegrityError component_version db with
  | some err_msg => .error { status := 500, detail := err_msg }
  | none =>
      .ok (component_version,
        { db with
            component_versions := db.component_versions ++ [component_version],
            next_version_id := db.next_version_id + 1 })

/-- Source lines 125-131: `GET /components/types` returns every type row. -/
def get_component_types (db : DB) : List ComponentType :=
  db.component_types

/-- Source lines 143-151: the `except IntegrityError` branch of
`POST /components/types`: a message containing `UniqueViolation` becomes a
409 Conflict naming the duplicate type; anything else becomes a 500 with the
raw message. -/
def componentTypeErrorResponse (component_type : ComponentType)
    (err_msg : String) : HTTPError :=
  if strContains err_msg "UniqueViolation" then
    { status := 409,
      detail := s!"Component of type: {component_type.type} already exists" }
  else
    { status := 500, detail := err_msg }

/-- Source lines 134-152: `POST /components/types` builds a row from the body,
adds and flushes it; an `IntegrityError` is classified by
`componentTypeErrorResponse` and re-raised, rolling the transaction back. -/
def post_component_type (body : ComponentTypeInputModel) (db : DB) :
    Except HTTPError (ComponentType × DB) :=
  let component_type : ComponentType := { id := db.next_type_id, type := body.type }
  match typeIntegrityError component_type db with
  | some err_msg => .error (componentTypeErrorResponse component_type err_msg)
  | none =>
      .ok (component_type,
        { db with
            component_types := db.component_types ++ [component_type],
            next_type_id := db.next_type_id + 1 })

/-- Source lines 155-159: `DELETE /components/types` deletes every type row
and returns the count deleted. -/
def delete_component_types (db : DB) : Nat × DB :=
  (db.component_types.length, { db with component_types := [] })

/-- Source lines 162-168: `DELETE /components/types/{type_id}` deletes the
rows whose id matches (`delete()` returns the number of rows affected), then
raises 404 when that number is zero, rolling the transaction back. -/
def delete_component_type (type_id : Nat) (db : DB) :
    Except HTTPError (Nat × DB) :=
  let num_deleted :=
    (db.component_types.filter (fun t => t.id == type_id)).length
  if num_deleted == 0 then
    .error { status := 404,
             detail := s!"Component type with ID: {type_id} not found" }
  else
    .ok (num_deleted,
      { db with
          component_types := db.component_types.filter
            (fun t => t.id != type_id) })

/-- The versions column restricted to one component: the `version` numbers of
the rows whose `component_id` is the given id, in table order. -/
def versionNums (component_id : Nat) (db : DB) : List Nat :=
  (db.component_versions.filter
    (fun v => v.component_id == component_id)).map (fun v => v.version)

/-- Sequential composition of `POST /components/{component_id}/versions`
calls, one per body, stopping at the first error. -/
def postVersionsN (component_id : Nat) :
    List ComponentVersionInputModel → DB → Except HTTPError DB
  | [], db => .ok db
  | b :: bs, db =>
      match post_component_version component_id b db with
      | .error e => .error e
      | .ok (_, db') => postVersionsN component_id bs db'

/-- Local state of one in-flight `POST /components/{component_id}/versions`
transaction: `readResult` is `some r` once line 108's `max(version)` query has
run (with `r` the query result), and `inserted` holds the row once the insert
has committed. -/
structure TxState where
  readResult : Option (Option Nat)
  inserted : Option ComponentVersion
deriving DecidableEq

/-- Two version-creation transactions interleaved over one shared database at
read-committed isolation (§5 of the spec): every statement sees the committed
state. -/
structure ConcState where
  db : DB
  tx1 : TxState
  tx2 : TxState
deriving DecidableEq

/-- The atomic statements of the two transactions: each transaction first runs
the `max(version)` query, then inserts its row and commits. -/
inductive ConcAction
  | read1
  | write1
  | read2
  | write2
deriving DecidableEq

/-- Line 108 of the handler as one atomic statement: run the `max(version)`
query against the committed state and keep the result in the transaction. -/
def txRead (component_id : Nat) (db : DB) (t : TxState) : TxState :=
  { t with readResult := some (maxVersionQuery component_id db) }

/-- Lines 109-112 of the handler: the row a transaction builds from the query
result it read earlier (`None` treated as 0, plus 1, `is_verified = False`). -/
def txRow (component_id : Nat) (body : ComponentVersionInputModel) (db : DB)
    (r : Option Nat) : ComponentVersion :=
  let version :=
    match r with
    | none => 0
    | some v => v
  { id := db.next_version_id, component_id := component_id,
    version := version + 1, is_verified := false, payload := body.payload }

/-- One interleaving step.  A write only fires after its transaction's read
(program order); the insert commits when the database accepts the row, and is
a no-op otherwise (the transaction would abort). -/
def concStep (component_id : Nat)
    (body1 body2 : ComponentVersionInputModel) (s : ConcState) :
    ConcAction → ConcState
  | .read1 => { s with tx1 := txRead component_id s.db s.tx1 }
  | .read2 => { s with tx2 := txRead component_id s.db s.tx2 }
  | .write1 =>
      match s.tx1.readResult with
      | none => s
      | some r =>
          let row := txRow component_id body1 s.db r
          match versionIntegrityError row s.db with
          | some _ => s
          | none =>
              { s with
                  db := { s.db with
                            component_versions := s.db.component_versions ++ [row],
                            next_version_id := s.db.next_version_id + 1 },
                  tx1 := { s.tx1 with inserted := some row } }
  | .write2 =>
      match s.tx2.readResult with
      | none => s
      | some r =>
          let row := txRow component_id body2 s.db r
          match versionIntegrityError row s.db with
          | some _ => s
          | none =>
              { s with
                  db := { s.db with
                            component_versions := s.db.component_versions ++ [row],
                            next_version_id := s.db.next_version_id + 1 },
                  tx2 := { s.tx2 with inserted := some row } }

/-- Run an interleaving schedule from a state. -/
def runSchedule (component_id : Nat)
    (body1 body2 : ComponentVersionInputModel) (s : ConcState)
    (sched : List ConcAction) : ConcState :=
  sched.foldl (concStep component_id body1 body2) s

/-- Both transactions still pending over the given committed database. -/
def initConc (db : DB) : ConcState :=
  { db := db, tx1 := { readResult := none, inserted := none },
    tx2 := { readResult := none, inserted := none } }

/-- A concrete database: one component type, one component referencing it, no
data rows and no version rows. -/
def db0 : DB :=
  { components := [{ id := 1, type_id := 1, name := "amp" }],
    component_data := [],
    component_versions := [],
    component_types := [{ id := 1, type := "Amplifier" }],
    next_component_id := 2,
    next_data_id := 1,
    next_version_id := 1,
    next_type_id := 2 }

theorem sqlMax_foldl_some (l : List Nat) :
    ∀ a : Nat,
      l.foldl (fun acc v => some (max (acc.getD 0) v)) (some a) =
        some (l.foldl max a) := by
  induction l with
  | nil => intro a; rfl
  | cons x xs ih =>
      intro a
      simp only [List.foldl_cons, Option.getD_some]
      exact ih (max a x)

theorem sqlMax_getD (l : List Nat) : (sqlMax l).getD 0 = l.foldl max 0 := by
  cases l with
  | nil => rfl
  | cons x xs =>
      simp only [sqlMax, List.foldl_cons, Option.getD_none, sqlMax_foldl_some,
        Option.getD_some]

theorem foldl_max_range_succs (k : Nat) :
    ((List.range k).map (fun n => n + 1)).foldl max 0 = k := by
  induction k with
  | zero => rfl
  | succ m ih =>
      rw [List.range_succ, List.map_append, List.foldl_append, ih]
      simp [Nat.max_eq_right (Nat.le_succ m)]

theorem filter_id_length_one {l : List ComponentType} {tid : Nat}
    (hd : (l.map (fun t => t.id)).Nodup) {t : ComponentType}
    (ht : t ∈ l) (hid : t.id = tid) :
    (l.filter (fun u => u.id == tid)).length = 1 := by
  induction l with
  | nil => cases ht
  | cons x xs ih =>
      simp only [List.map_cons, List.nodup_cons, List.mem_map] at hd
      rcases List.mem_cons.mp ht with hx | hxs
      · subst hx
        have hnone : xs.filter (fun u => u.id == tid) = [] := by
          rw [List.filter_eq_nil_iff]
          intro u hu
          simp only [beq_iff_eq]
          intro hcon
          exact hd.1 ⟨u, hu, by rw [hcon, hid]⟩
        simp [List.filter_cons, hid, hnone]
      · have hxne : x.id ≠ tid := by
          intro hcon
          exact hd.1 ⟨t, hxs, by rw [hid, hcon]⟩
        simp only [List.filter_cons, beq_iff_eq, hxne, if_false]
        exact ih hd.2 hxs

theorem find?_replace {α : Type} (p : α → Bool) (u : α) (hu : p u = true) :
    ∀ (l : List α) (c : α), l.find? p = some c →
      (l.map (fun x => if p x then u else x)).find? p = some u := by
  intro l
  induction l with
  | nil => intro c h; cases h
  | cons x xs ih =>
      intro c h
      by_cases hx : p x = true
      · simp [List.find?_cons, hx, hu]
      · have hx' : p x = false := by simpa using hx
        rw [List.find?_cons_of_neg _ (by simp [hx'])] at h
        simpa [List.find?_cons, hx', hu] using ih c h

theorem post_component_version_ok (component_id : Nat)
    (body : ComponentVersionInputModel) (db : DB)
    (h : db.components.any (fun c => c.id == component_id) = true) :
    post_component_version component_id body db =
      .ok ({ id := db.next_version_id, component_id := component_id,
             version := (maxVersionQuery component_id db).getD 0 + 1,
             is_verified := false, payload := body.payload },
           { db with
               component_versions := db.component_versions ++
                 [{ id := db.next_version_id, component_id := component_id,
                    version := (maxVersionQuery component_id db).getD 0 + 1,
                    is_verified := false, payload := body.payload }],
               next_version_id := db.next_version_id + 1 }) := by
  unfold post_component_version versionIntegrityError
  cases hm : maxVersionQuery component_id db <;>
    simp [h, Option.getD]

theorem versionNums_append_own (component_id : Nat) (db : DB)
    (row : ComponentVersion) (hrow : row.component_id = component_id) :
    versionNums component_id
        { db with component_versions := db.component_versions ++ [row],
                  next_version_id := db.next_version_id + 1 } =
      versionNums component_id db ++ [row.version] := by
  simp [versionNums, List.filter_append, List.filter_cons, hrow]

theorem postVersionsN_ok (component_id : Nat)
    (bodies : List ComponentVersionInputModel) :
    ∀ (db : DB) (k : Nat),
      db.components.any (fun c => c.id == component_id) = true →
      versionNums component_id db = (List.range k).map (fun n => n + 1) →
      ∃ db', postVersionsN component_id bodies db = .ok db' ∧
        versionNums component_id db' =
          (List.range (k + bodies.length)).map (fun n => n + 1) := by
  induction bodies with
  | nil =>
      intro db k h hv
      exact ⟨db, rfl, by simpa using hv⟩
  | cons b bs ih =>
      intro db k h hv
      have hmax : (maxVersionQuery component_id db).getD 0 = k := by
        rw [maxVersionQuery, sqlMax_getD]
        rw [show (db.component_versions.filter
              (fun v => v.component_id == component_id)).map (fun v => v.version) =
            versionNums component_id db from rfl, hv]
        exact foldl_max_range_succs k
      have hstep := post_component_version_ok component_id b db h
      rw [hmax] at hstep
      have hnums :
          versionNums component_id
            { db with
                component_versions := db.component_versions ++
                  [{ id := db.next_version_id, component_id := component_id,
                     version := k + 1, is_verified := false, payload := b.payload }],
                next_version_id := db.next_version_id + 1 } =
            (List.range (k + 1)).map (fun n => n + 1) := by
        rw [versionNums_append_own component_id db _ rfl, hv, List.range_succ]
        simp
      have hany :
          (DB.components
            { db with
                component_versions := db.component_versions ++
                  [{ id := db.next_version_id, component_id := component_id,
                     version := k + 1, is_verified := false, payload := b.payload }],
                next_version_id := db.next_version_id + 1 }).any
            (fun c => c.id == component_id) = true := h
      obtain ⟨db', hrun, hv'⟩ := ih _ (k + 1) hany hnums
      refine ⟨db', ?_, ?_⟩
      · rw [postVersionsN, hstep]
        exact hrun
      · rw [hv']
        have : k + 1 + bs.length = k + (b :: bs).length := by
          simp [Nat.add_comm, Nat.add_assoc, Nat.add_left_comm]
        rw [this]

/-- C8: `DELETE /components` deletes every component row and returns the
number of rows the table held before the call, leaving the table empty;
`DELETE /components/types` does the same for the component-type table. -/
theorem c8_bulk_deletes_clear_tables (db : DB) :
    (delete_components db).1 = (get_components db).length ∧
    (delete_components db).2.components = [] ∧
    (delete_component_types db).1 = (get_component_types db).length ∧
    (delete_component_types db).2.component_types = [] :=
  ⟨rfl, rfl, rfl, rfl⟩

/-- C10: `POST /components/{component_id}/data` never reads the path
parameter: for a fixed body and database state the result is the same for
every path id, and a missing parent never yields a 404 — any error from this
endpoint is a 500. -/
theorem c10_data_endpoint_ignores_path_id (pid pid' : Nat)
    (body : ComponentDataInputModel) (db : DB) :
    post_component_data pid body db = post_component_data pid' body db ∧
    ∀ e : HTTPError, post_component_data pid body db = .error e →
      e.status = 500 := by
  constructor
  · rfl
  · intro e he
    rw [post_component_data] at he
    split at he
    · cases he
      rfl
    · cases he

theorem c10_data_endpoint_ignores_path_id_witness :
    post_component_data 5 { component_id := 42, payload := "d" } db0 =
      post_component_data 99 { component_id := 42, payload := "d" } db0 ∧
    HTTPError.status
      { status := 500,
        detail := "(psycopg2.errors.ForeignKeyViolation) insert or update on table component_data violates foreign key constraint" } = 500 :=
  ⟨(c10_data_endpoint_ignores_path_id 5 99
      { component_id := 42, payload := "d" } db0).1,
   (c10_data_endpoint_ignores_path_id 5 99
      { component_id := 42, payload := "d" } db0).2 _ (by rfl)⟩

/-- C6: `GET /components/{component_id}/versions` returns 404 when no
component has that id, and otherwise returns exactly the version rows whose
`component_id` equals that id. -/
theorem c6_get_versions_requires_parent (component_id : Nat) (db : DB) :
    ((∀ c ∈ db.components, c.id ≠ component_id) →
       get_component_versions component_id db =
         .error { status := 404,
                  detail := s!"Component with ID: {component_id} not found" }) ∧
    ((∃ c ∈ db.components, c.id = component_id) →
       get_component_versions component_id db =
         .ok (db.component_versions.filter
           (fun v => v.component_id == component_id))) := by
  constructor
  · intro h
    have hfind : db.components.find? (fun c => c.id == component_id) = none := by
      rw [List.find?_eq_none]
      intro c hc
      simpa using h c hc
    rw [get_component_versions, hfind]
  · rintro ⟨c, hc, hid⟩
    have hsome : (db.components.find? (fun c => c.id == component_id)).isSome := by
      rw [List.find?_isSome]
      exact ⟨c, hc, by simpa using hid⟩
    rw [get_component_versions]
    cases hfind : db.components.find? (fun c => c.id == component_id) with
    | none => rw [hfind] at hsome; cases hsome
    | some c0 => rfl

theorem c6_get_versions_requires_parent_witness :
    get_component_versions 2 db0 =
      .error { status := 404, detail := "Component with ID: 2 not found" } ∧
    get_component_versions 1 db0 = .ok [] :=
  ⟨by
      have h := (c6_get_versions_requires_parent 2 db0).1 (by decide)
      simpa using h,
   by
      have h := (c6_get_versions_requires_parent 1 db0).2
        ⟨{ id := 1, type_id := 1, name := "amp" }, by decide, rfl⟩
      simpa using h⟩

/-- C5: `POST /components` with a valid body appends exactly one row built
from the body, with the generated id, and the route's success status is 201;
a constraint violation (here: a dangling type reference) yields a generic 500
error, and the transaction rolls back, so no row is committed. -/
theorem c5_post_component_creates_or_500 (body : ComponentInputModel) (db : DB) :
    (db.component_types.any (fun t => t.id == body.type_id) = true →
       post_component body db =
         .ok ({ id := db.next_component_id, type_id := body.type_id,
                name := body.name },
              { db with
                  components := db.components ++
                    [{ id := db.next_component_id, type_id := body.type_id,
                       name := body.name }],
                  next_component_id := db.next_component_id + 1 })) ∧
    (db.component_types.any (fun t => t.id == body.type_id) = false →
       ∃ msg, post_component body db = .error { status := 500, detail := msg }) ∧
    post_component_status_code = 201 := by
  refine ⟨?_, ?_, rfl⟩
  · intro h
    rw [post_component]
    simp [componentIntegrityError, h]
  · intro h
    rw [post_component]
    simp [componentIntegrityError, h]

theorem c5_post_component_creates_or_500_witness :
    (db0.component_types.any (fun t => t.id == (1 : Nat)) = true) ∧
    post_component { type_id := 1, name := "filt" } db0 =
      .ok ({ id := 2, type_id := 1, name := "filt" },
           { db0 with
               components := db0.components ++ [{ id := 2, type_id := 1, name := "filt" }],
               next_component_id := 3 }) :=
  ⟨by decide,
   by
     have h := (c5_post_component_creates_or_500
       { type_id := 1, name := "filt" } db0).1 (by decide)
     simpa using h⟩

/-- C7: a component successfully created by `POST /components` appears in a
subsequent `GET /components` with the fields it was created with. -/
theorem c7_create_then_list_roundtrip (body : ComponentInputModel) (db : DB)
    (c : Component) (db' : DB)
    (h : post_component body db = .ok (c, db')) :
    c ∈ get_components db' ∧ c.type_id = body.type_id ∧ c.name = body.name := by
  rw [post_component] at h
  split at h
  · cases h
  · cases h
    refine ⟨?_, rfl, rfl⟩
    rw [get_components]
    simp

theorem c7_create_then_list_roundtrip_witness :
    ({ id := 2, type_id := 1, name := "filt" } : Component) ∈
      get_components
        { db0 with
            components := db0.components ++ [{ id := 2, type_id := 1, name := "filt" }],
            next_component_id := 3 } ∧
    Component.type_id { id := 2, type_id := 1, name := "filt" } = 1 ∧
    Component.name { id := 2, type_id := 1, name := "filt" } = "filt" :=
  c7_create_then_list_roundtrip { type_id := 1, name := "filt" } db0
    { id := 2, type_id := 1, name := "filt" }
    { db0 with
        components := db0.components ++ [{ id := 2, type_id := 1, name := "filt" }],
        next_component_id := 3 }
    (by rfl)

/-- C2: `POST /components/types` with an already-present type string yields a
409 Conflict whose message names the duplicate value (the transaction rolls
back, so no duplicate row is committed); a distinct type string succeeds and
returns the created type; an `IntegrityError` whose message lacks the
`UniqueViolation` marker is reported as a 500. -/
theorem c2_post_type_conflict_on_duplicate (body : ComponentTypeInputModel)
    (db : DB) (msg : String) :
    (db.component_types.any (fun u => u.type == body.type) = true →
       post_component_type body db =
         .error { status := 409,
                  detail := s!"Component of type: {body.type} already exists" }) ∧
    (db.component_types.any (fun u => u.type == body.type) = false →
       post_component_type body db =
         .ok ({ id := db.next_type_id, type := body.type },
              { db with
                  component_types := db.component_types ++
                    [{ id := db.next_type_id, type := body.type }],
                  next_type_id := db.next_type_id + 1 })) ∧
    (strContains msg "UniqueViolation" = false →
       (componentTypeErrorResponse { id := db.next_type_id, type := body.type }
         msg).status = 500) := by
  refine ⟨?_, ?_, ?_⟩
  · intro h
    have hmark : strContains
        "(psycopg2.errors.UniqueViolation) duplicate key value violates unique constraint"
        "UniqueViolation" = true := by decide
    simp [post_component_type, typeIntegrityError, h,
      componentTypeErrorResponse, hmark]
  · intro h
    simp [post_component_type, typeIntegrityError, h]
  · intro h
    simp [componentTypeErrorResponse, h]

theorem c2_post_type_conflict_on_duplicate_witness :
    (db0.component_types.any (fun u => u.type == "Amplifier") = true) ∧
    post_component_type { type := "Amplifier" } db0 =
      .error { status := 409,
               detail := "Component of type: Amplifier already exists" } ∧
    post_component_type { type := "Mixer" } db0 =
      .ok ({ id := 2, type := "Mixer" },
           { db0 with
               component_types := db0.component_types ++ [{ id := 2, type := "Mixer" }],
               next_type_id := 3 }) ∧
    (componentTypeErrorResponse { id := 2, type := "Mixer" } "boom").status = 500 :=
  ⟨by decide,
   by
     have h := (c2_post_type_conflict_on_duplicate
       { type := "Amplifier" } db0 "boom").1 (by decide)
     simpa using h,
   by
     have h := (c2_post_type_conflict_on_duplicate
       { type := "Mixer" } db0 "boom").2.1 (by decide)
     simpa using h,
   (c2_post_type_conflict_on_duplicate { type := "Mixer" } db0 "boom").2.2
     (by decide)⟩

/-- C4: `DELETE /components/types/{type_id}` for an id no row carries returns
404 with zero rows affected and leaves the table unchanged; for an existing id
(ids are unique primary keys) it returns `num_deleted = 1` and afterwards no
row carries that id. -/
theorem c4_delete_type_404_or_removes_row (type_id : Nat) (db : DB) :
    ((∀ t ∈ db.component_types, t.id ≠ type_id) →
       delete_component_type type_id db =
         .error { status := 404,
                  detail := s!"Component type with ID: {type_id} not found" } ∧
       db.component_types.filter (fun t => t.id == type_id) = []) ∧
    ((db.component_types.map (fun t => t.id)).Nodup →
       (∃ t ∈ db.component_types, t.id = type_id) →
       ∃ db', delete_component_type type_id db = .ok (1, db') ∧
         ∀ u ∈ db'.component_types, u.id ≠ type_id) := by
  constructor
  · intro h
    have hnil : db.component_types.filter (fun t => t.id == type_id) = [] := by
      rw [List.filter_eq_nil_iff]
      intro t ht
      simpa using h t ht
    refine ⟨?_, hnil⟩
    simp [delete_component_type, hnil]
  · rintro hnodup ⟨t, ht, hid⟩
    have hone := filter_id_length_one hnodup ht hid
    refine ⟨{ db with
        component_types := db.component_types.filter (fun t => t.id != type_id) },
      ?_, ?_⟩
    · simp [delete_component_type, hone]
    · intro u hu
      simp only [List.mem_filter] at hu
      simpa using hu.2

theorem c4_delete_type_404_or_removes_row_witness :
    delete_component_type 7 db0 =
      .error { status := 404, detail := "Component type with ID: 7 not found" } ∧
    ∃ db', delete_component_type 1 db0 = .ok (1, db') ∧
      ∀ u ∈ db'.component_types, u.id ≠ 1 :=
  ⟨by
     have h := ((c4_delete_type_404_or_removes_row 7 db0).1 (by decide)).1
     simpa using h,
   (c4_delete_type_404_or_removes_row 1 db0).2 (by decide)
     ⟨{ id := 1, type := "Amplifier" }, by decide, rfl⟩⟩

/-- C3: `PUT /components/{component_id}` returns 404 when no component has
that id; otherwise (for a body whose type reference is valid) every stored
field is overwritten with the body's value — the updated row is built from the
body alone, so no prior field value survives — and the updated resource is
returned. -/
theorem c3_put_is_full_replace (component_id : Nat) (body : ComponentInputModel)
    (db : DB) :
    ((∀ c ∈ db.components, c.id ≠ component_id) →
       update_component component_id body db =
         .error { status := 404,
                  detail := s!"Component with ID: {component_id} not found" }) ∧
    ((∃ c ∈ db.components, c.id = component_id) →
       db.component_types.any (fun t => t.id == body.type_id) = true →
       ∃ db', update_component component_id body db =
         .ok ({ id := component_id, type_id := body.type_id, name := body.name },
              db') ∧
         db'.components.find? (fun c => c.id == component_id) =
           some { id := component_id, type_id := body.type_id, name := body.name }) := by
  constructor
  · intro h
    have hfind : db.components.find? (fun c => c.id == component_id) = none := by
      rw [List.find?_eq_none]
      intro c hc
      simpa using h c hc
    rw [update_component, hfind]
  · rintro ⟨c, hc, hid⟩ hty
    have hsome : (db.components.find? (fun c => c.id == component_id)).isSome := by
      rw [List.find?_isSome]
      exact ⟨c, hc, by simpa using hid⟩
    cases hfind : db.components.find? (fun c => c.id == component_id) with
    | none =>
        rw [hfind] at hsome
        cases hsome
    | some c0 =>
        have hc0 : c0.id = component_id := by
          simpa using List.find?_some hfind
        refine ⟨{ db with
            components := db.components.map
              (fun x => if x.id == component_id then
                { id := component_id, type_id := body.type_id, name := body.name }
                else x) }, ?_, ?_⟩
        · rw [update_component, hfind]
          simp [componentIntegrityError, hty, hc0]
        · exact find?_replace (fun x => x.id == component_id)
            { id := component_id, type_id := body.type_id, name := body.name }
            (by simp) db.components c0 hfind

theorem c3_put_is_full_replace_witness :
    update_component 9 { type_id := 1, name := "x" } db0 =
      .error { status := 404, detail := "Component with ID: 9 not found" } ∧
    ∃ db', update_component 1 { type_id := 1, name := "lna" } db0 =
      .ok ({ id := 1, type_id := 1, name := "lna" }, db') ∧
      db'.components.find? (fun c => c.id == 1) =
        some { id := 1, type_id := 1, name := "lna" } :=
  ⟨by
     have h := (c3_put_is_full_replace 9 { type_id := 1, name := "x" } db0).1
       (by decide)
     simpa using h,
   (c3_put_is_full_replace 1 { type_id := 1, name := "lna" } db0).2
     ⟨{ id := 1, type_id := 1, name := "amp" }, by decide, rfl⟩ (by decide)⟩

/-- C1: `POST /components/{component_id}/versions` for an existing component
inserts a row whose version is the prior maximum for that component plus 1
(`NULL` treated as 0) with `is_verified = false`; starting from no versions,
N sequential calls yield versions 1..N with no gaps. -/
theorem c1_sequential_version_numbering (component_id : Nat) (db : DB)
    (h : db.components.any (fun c => c.id == component_id) = true) :
    (∀ body : ComponentVersionInputModel, ∃ row db',
       post_component_version component_id body db = .ok (row, db') ∧
       row.version = (maxVersionQuery component_id db).getD 0 + 1 ∧
       row.is_verified = false) ∧
    (versionNums component_id db = [] →
       ∀ bodies : List ComponentVersionInputModel, ∃ db',
         postVersionsN component_id bodies db = .ok db' ∧
         versionNums component_id db' =
           (List.range bodies.length).map (fun n => n + 1)) := by
  constructor
  · intro body
    exact ⟨_, _, post_component_version_ok component_id body db h, rfl, rfl⟩
  · intro hempty bodies
    have h0 := postVersionsN_ok component_id bodies db 0 h (by simpa using hempty)
    simpa using h0

theorem c1_sequential_version_numbering_witness :
    (db0.components.any (fun c => c.id == 1) = true) ∧
    (∃ row db', post_component_version 1 { payload := "v" } db0 = .ok (row, db') ∧
       row.version = (maxVersionQuery 1 db0).getD 0 + 1 ∧
       row.is_verified = false) ∧
    (∃ db', postVersionsN 1 [{ payload := "v1" }, { payload := "v2" },
        { payload := "v3" }] db0 = .ok db' ∧
       versionNums 1 db' = [1, 2, 3]) :=
  ⟨by decide,
   (c1_sequential_version_numbering 1 db0 (by decide)).1 { payload := "v" },
   by
     have h := (c1_sequential_version_numbering 1 db0 (by decide)).2 (by decide)
       [{ payload := "v1" }, { payload := "v2" }, { payload := "v3" }]
     simpa using h⟩

theorem runSchedule_one_transaction_agrees (component_id : Nat)
    (b1 b2 : ComponentVersionInputModel) (db : DB)
    (h : db.components.any (fun c => c.id == component_id) = true) :
    ∃ row db',
      post_component_version component_id b1 db = .ok (row, db') ∧
      (runSchedule component_id b1 b2 (initConc db)
        [ConcAction.read1, ConcAction.write1]).db = db' ∧
      (runSchedule component_id b1 b2 (initConc db)
        [ConcAction.read1, ConcAction.write1]).tx1.inserted = some row := by
  refine ⟨_, _, post_component_version_ok component_id b1 db h, ?_, ?_⟩ <;>
    cases hm : maxVersionQuery component_id db <;>
      simp [runSchedule, List.foldl, concStep, txRead, txRow, initConc,
        versionIntegrityError, h, hm]

/-- C9: the claim that two concurrent `POST /components/{component_id}/versions`
calls never both succeed with the same version number fails on this code: at
read-committed isolation the interleaving read1-read2-write1-write2 over a
component with no versions lets both transactions read `max(version) = NULL`,
and both commit a row with version 1. -/
theorem c9_concurrent_calls_commit_duplicate_version :
    ((runSchedule 1 { payload := "a" } { payload := "b" } (initConc db0)
        [ConcAction.read1, ConcAction.read2, ConcAction.write1,
         ConcAction.write2]).tx1.inserted.map (fun r => r.version) = some 1) ∧
    ((runSchedule 1 { payload := "a" } { payload := "b" } (initConc db0)
        [ConcAction.read1, ConcAction.read2, ConcAction.write1,
         ConcAction.write2]).tx2.inserted.map (fun r => r.version) = some 1) ∧
    versionNums 1
      (runSchedule 1 { payload := "a" } { payload := "b" } (initConc db0)
        [ConcAction.read1, ConcAction.read2, ConcAction.write1,
         ConcAction.write2]).db = [1, 1] :=
  ⟨rfl, rfl, rfl⟩
